import Mathlib

/-!
Verification development for the k8-cluster-setup repository.

The repository contains two Python scripts:
  * `cross distro cluster setup /cross_distro_k8_cluster_setup.py` (the
    "cross" variant below), and
  * `k8 cluster setup debian/k8_cluster_setup.py` (the "debian" variant).

Each definition below is a shallow embedding of one function of one of
those scripts.  Text is represented as `String` (manipulated through its
underlying `List Char` so that everything reduces), fallible Python code is
embedded as functions into `PyResult`, and the behaviour of the host
(subprocess results, file contents, probed facts) is passed in explicitly.
-/

/-- Python whitespace characters, as used by `str.strip` and the regex
class `\s`. -/
def pySpaceChars : List Char := [' ', '\t', '\n', '\r', '\x0b', '\x0c']

/-- Test for a Python whitespace character. -/
def isPySpace (c : Char) : Bool := pySpaceChars.contains c

/-- Embedding of Python `str.strip()`: drop whitespace from both ends. -/
def pyStrip (s : String) : String :=
  ⟨((s.data.dropWhile isPySpace).reverse.dropWhile isPySpace).reverse⟩

/-- Embedding of Python `c in s` for a single character `c`. -/
def strContainsChar (s : String) (c : Char) : Bool := s.data.contains c

/-- ASCII lower-casing of one character, as Python `str.lower` does on the
identifiers appearing in this program. -/
def lowerChar (c : Char) : Char :=
  if 'A' ≤ c ∧ c ≤ 'Z' then Char.ofNat (c.toNat + 32) else c

/-- Embedding of Python `str.lower()` (ASCII range). -/
def pyLower (s : String) : String := ⟨s.data.map lowerChar⟩

/-- Embedding of Python `str.startswith`. -/
def pyStartsWith (s p : String) : Bool := p.data.isPrefixOf s.data

/-- Decimal digits of a natural number (fuelled helper). -/
def natStrGo : Nat → Nat → List Char
  | 0, _ => []
  | fuel + 1, n =>
    if n < 10 then [Char.ofNat (48 + n)]
    else natStrGo fuel (n / 10) ++ [Char.ofNat (48 + n % 10)]

/-- Decimal rendering of a natural number, used for the `f"...{retries}..."`
interpolations of the source. -/
def natStr (n : Nat) : String := ⟨natStrGo (n + 1) n⟩

/-- The Python exception classes that the two scripts can raise. -/
inductive PyError where
  | k8sSetupError (msg : String)
  | valueError (msg : String)
  | fileNotFound (msg : String)
  | yamlError (msg : String)
  | attributeError (msg : String)
  | keyError (msg : String)
  | typeError (msg : String)
deriving DecidableEq

/-- The `str(e)` rendering used when an exception is interpolated into a
new message. -/
def pyErrMsg : PyError → String
  | .k8sSetupError m => m
  | .valueError m => m
  | .fileNotFound m => m
  | .yamlError m => m
  | .attributeError m => m
  | .keyError m => m
  | .typeError m => m

/-- Outcome of a Python call: a returned value or a raised exception. -/
inductive PyResult (α : Type) where
  | ok (val : α)
  | exn (e : PyError)
deriving DecidableEq

/-- Behaviour of one `subprocess.run` attempt for a given command, as seen
by `run_command`: normal exit 0 with captured stdout, a `CalledProcessError`
(non-zero exit under `check=True`), a `TimeoutExpired`, an `OSError`, or any
other exception. -/
inductive AttemptOutcome where
  | success (stdout : String)
  | nonZeroExit (stderr : String)
  | timeoutExpired (msg : String)
  | osError (msg : String)
  | otherError (msg : String)
deriving DecidableEq

/-- Result of a `run_command` call: the Python return value (`none` models
Python `None`, which the function returns when its retry loop body never
runs) or the raised exception, together with the number of
`subprocess.run` attempts that were actually made. -/
structure RunOutcome where
  result : PyResult (Option String)
  attemptsUsed : Nat
deriving DecidableEq

/-- The retry loop of the cross variant's `run_command`
(cross_distro_k8_cluster_setup.py lines 386-415).  `env i` is the behaviour
of `subprocess.run` on attempt `i`; `attempt` is the loop counter and
`remaining` the number of iterations the loop still has (so the Python
condition `attempt == retries - 1` is `remaining = 0`).  Every exception
except `TimeoutExpired` and `OSError` falls into the generic
`except Exception` clause; in particular a `CalledProcessError` is retried
there.  If the loop ends without returning, Python returns `None`. -/
def crossRunLoop (env : Nat → AttemptOutcome) (retries : Nat) :
    Nat → Nat → RunOutcome
  | attempt, 0 => ⟨.ok none, attempt⟩
  | attempt, remaining + 1 =>
    match env attempt with
    | .success out => ⟨.ok (some (pyStrip out)), attempt + 1⟩
    | .timeoutExpired _ =>
      if remaining = 0 then
        ⟨.exn (.k8sSetupError "Command repeatedly timed out"), attempt + 1⟩
      else crossRunLoop env retries (attempt + 1) remaining
    | .osError _ =>
      if remaining = 0 then
        ⟨.exn (.k8sSetupError ("OS error after " ++ natStr retries ++ " attempts")),
          attempt + 1⟩
      else crossRunLoop env retries (attempt + 1) remaining
    | .nonZeroExit _ =>
      if remaining = 0 then
        ⟨.exn (.k8sSetupError ("Unexpected error after " ++ natStr retries ++ " attempts")),
          attempt + 1⟩
      else crossRunLoop env retries (attempt + 1) remaining
    | .otherError _ =>
      if remaining = 0 then
        ⟨.exn (.k8sSetupError ("Unexpected error after " ++ natStr retries ++ " attempts")),
          attempt + 1⟩
      else crossRunLoop env retries (attempt + 1) remaining

/-- The cross variant's `run_command(cmd, ..., retries, timeout)`
(cross_distro_k8_cluster_setup.py lines 377-415).  The command string is
never inspected by the function itself (there is no input validation); the
host's behaviour for the command is `env`. -/
def crossRunCommand (cmd : String) (env : Nat → AttemptOutcome)
    (retries : Nat := 3) : RunOutcome :=
  let _ := cmd
  crossRunLoop env retries 0 retries

/-- The retry loop of the debian variant's `run_command`
(k8_cluster_setup.py lines 58-80).  Only `CalledProcessError` is retried;
any other exception (including `TimeoutExpired`) falls into
`except Exception`, which raises a `K8sSetupError` at once. -/
def debianRunLoop (env : Nat → AttemptOutcome) (retries : Nat) :
    Nat → Nat → RunOutcome
  | attempt, 0 => ⟨.ok none, attempt⟩
  | attempt, remaining + 1 =>
    match env attempt with
    | .success out => ⟨.ok (some (pyStrip out)), attempt + 1⟩
    | .nonZeroExit _ =>
      if remaining = 0 then
        ⟨.exn (.k8sSetupError ("Command failed after " ++ natStr retries ++ " attempts")),
          attempt + 1⟩
      else debianRunLoop env retries (attempt + 1) remaining
    | .timeoutExpired m => ⟨.exn (.k8sSetupError ("Unexpected error: " ++ m)), attempt + 1⟩
    | .osError m => ⟨.exn (.k8sSetupError ("Unexpected error: " ++ m)), attempt + 1⟩
    | .otherError m => ⟨.exn (.k8sSetupError ("Unexpected error: " ++ m)), attempt + 1⟩

/-- The debian variant's `run_command(command, ..., retries, timeout)`
(k8_cluster_setup.py lines 47-80).  Before any attempt it rejects a command
containing the statement separator with `ValueError("Invalid command
format")`. -/
def debianRunCommand (cmd : String) (env : Nat → AttemptOutcome)
    (retries : Nat := 3) : RunOutcome :=
  if strContainsChar cmd ';' then ⟨.exn (.valueError "Invalid command format"), 0⟩
  else debianRunLoop env retries 0 retries

example :
    crossRunCommand "kubeadm init" (fun _ => .success " ok \n") 3 =
      ⟨.ok (some "ok"), 1⟩ := by decide

example :
    debianRunCommand "echo a; echo b" (fun _ => .success "x") 3 =
      ⟨.exn (.valueError "Invalid command format"), 0⟩ := by decide

example :
    debianRunCommand "kubeadm init" (fun _ => .timeoutExpired "timed out") 3 =
      ⟨.exn (.k8sSetupError "Unexpected error: timed out"), 1⟩ := by decide

example :
    crossRunCommand "x" (fun _ => .timeoutExpired "t") 3 =
      ⟨.exn (.k8sSetupError "Command repeatedly timed out"), 3⟩ := by decide

/-- A parsed YAML configuration mapping (keys to string values; only key
membership and the two CIDR/plugin values matter to the scripts). -/
abbrev ConfigMap := List (String × String)

/-- What reading and YAML-parsing the configuration file produced: the file
was absent, the YAML parser failed, or a mapping was parsed.  (The debian
variant turns a YAML `None` into `{}` via `or {}`, which is the `parsed []`
case.) -/
inductive ConfigSource where
  | fileNotFound (msg : String)
  | yamlError (msg : String)
  | parsed (config : ConfigMap)
deriving DecidableEq

/-- The required configuration fields of both `load_config` variants. -/
def requiredFields : List String := ["pod_network_cidr", "network_plugin"]

/-- Embedding of Python `field in config` for a parsed mapping. -/
def hasField (c : ConfigMap) (k : String) : Bool := c.any (fun p => p.1 == k)

/-- The `missing` list computed by both `load_config` variants. -/
def missingFields (c : ConfigMap) : List String :=
  requiredFields.filter (fun f => !(hasField c f))

/-- The default configuration both variants substitute when the file is
absent. -/
def defaultConfigMap : ConfigMap :=
  [("pod_network_cidr", "192.168.0.0/16"), ("network_plugin", "calico")]

/-- Python `", ".join`. -/
def joinComma : List String → String
  | [] => ""
  | [s] => s
  | s :: rest => s ++ ", " ++ joinComma rest

/-- The cross variant's `load_config`
(cross_distro_k8_cluster_setup.py lines 438-458).  The `ValueError` raised
for missing required fields is caught by the function's own
`except ValueError` clause, which logs and returns the default mapping; a
YAML parse error is caught by no clause and propagates. -/
def crossLoadConfig : ConfigSource → PyResult ConfigMap
  | .fileNotFound _ => .ok defaultConfigMap
  | .yamlError m => .exn (.yamlError m)
  | .parsed c =>
    if missingFields c = [] then .ok c else .ok defaultConfigMap

/-- The debian variant's `load_config` (k8_cluster_setup.py lines 25-44).
Missing required fields raise `ValueError`, which no clause of this
function catches; a YAML parse error is re-raised as `K8sSetupError`. -/
def debianLoadConfig : ConfigSource → PyResult ConfigMap
  | .fileNotFound _ => .ok defaultConfigMap
  | .yamlError m => .exn (.k8sSetupError ("Error parsing YAML file: " ++ m))
  | .parsed c =>
    if missingFields c = [] then .ok c
    else .exn (.valueError ("Missing required config fields: " ++ joinComma (missingFields c)))

/-- The static CNI plugin table of the cross variant's
`deploy_network_plugin` (cross_distro_k8_cluster_setup.py lines 306-315):
only `calico` and `cilium` have entries. -/
def crossPluginTable : List (String × String) :=
  [("calico",
    "https://raw.githubusercontent.com/projectcalico/calico/v3.27.0/manifests/calico.yaml"),
   ("cilium",
    "https://raw.githubusercontent.com/cilium/cilium/v1.14/install/kubernetes/quick-install.yaml")]

/-- The static CNI plugin table of the debian variant's
`deploy_network_plugin` (k8_cluster_setup.py lines 180-183): only `calico`
and `flannel` have entries. -/
def debianPluginTable : List (String × String) :=
  [("calico", "https://docs.projectcalico.org/manifests/calico.yaml"),
   ("flannel",
    "https://raw.githubusercontent.com/coreos/flannel/master/Documentation/kube-flannel.yml")]

/-- The cross variant's `K8sCluster.deploy_network_plugin`
(cross_distro_k8_cluster_setup.py lines 304-337), as the shell commands it
issues on a successful lookup.  The argument is
`self.config.get("network_plugin", "")`; the code lower-cases it, rejects
an empty or unknown name with `K8sSetupError`, and otherwise fetches the
manifest by URL with `curl` and applies the saved manifest file with
`kubectl`. -/
def crossDeployNetworkPlugin (netPluginCfg : Option String) : PyResult (List String) :=
  let plugin := pyLower (netPluginCfg.getD "")
  match crossPluginTable.find? (fun p => p.1 == plugin) with
  | none => .exn (.k8sSetupError ("Unsupported or missing network plugin: " ++ plugin))
  | some pr =>
    .ok ["curl -fsSL " ++ pr.2, "kubectl apply -f " ++ plugin ++ "-manifest.yaml"]

/-- The debian variant's `deploy_network_plugin`
(k8_cluster_setup.py lines 178-190): no case normalization, `ValueError`
for an unknown name, and a single `kubectl apply -f <url>` otherwise. -/
def debianDeployNetworkPlugin (plugin : String) : PyResult (List String) :=
  match debianPluginTable.find? (fun p => p.1 == plugin) with
  | none => .exn (.valueError ("Unsupported plugin: " ++ plugin))
  | some pr => .ok ["kubectl apply -f " ++ pr.2]

/-- One distro family's package-manager verb table. -/
structure DistroCommands where
  update : String
  install : String
  remove : String
  clean : String
deriving DecidableEq

/-- The static verb table of `PackageManager._get_commands`
(cross_distro_k8_cluster_setup.py lines 69-113). -/
def packageManagerCommands : List (String × DistroCommands) :=
  [("ubuntu", ⟨"apt-get update", "apt-get install -y", "apt-get remove -y", "apt-get clean"⟩),
   ("debian", ⟨"apt-get update", "apt-get install -y", "apt-get remove -y", "apt-get clean"⟩),
   ("fedora", ⟨"dnf check-update", "dnf install -y", "dnf remove -y", "dnf clean all"⟩),
   ("centos", ⟨"yum check-update", "yum install -y", "yum remove -y", "yum clean all"⟩),
   ("rhel", ⟨"yum check-update", "yum install -y", "yum remove -y", "yum clean all"⟩),
   ("suse", ⟨"zypper refresh", "zypper install -y", "zypper remove -y", "zypper clean"⟩),
   ("arch", ⟨"pacman -Sy", "pacman -S --noconfirm", "pacman -R --noconfirm", "pacman -Sc --noconfirm"⟩)]

/-- The identifier normalization done once in `PackageManager.__init__`
(cross_distro_k8_cluster_setup.py line 65): `distro_id.lower()`. -/
def mkPackageManagerId (raw : String) : String := pyLower raw

/-- Lookup of `self.commands[distro_id]`, for an identifier already
normalized by `mkPackageManagerId`.  A `none` models the raw `KeyError`
that a Python dict lookup on an absent key would raise. -/
def lookupDistroCommands (distroId : String) : Option DistroCommands :=
  (packageManagerCommands.find? (fun p => p.1 == distroId)).map (fun p => p.2)

/-- The seven distro identifiers with entries in the verb table. -/
def supportedDistroIds : List String :=
  ["ubuntu", "debian", "fedora", "centos", "rhel", "suse", "arch"]

/-- Result of `ContainerRuntime.install_containerd`: the shell commands it
issued and the final content of `/etc/containerd/config.toml`. -/
structure InstallResult where
  cmds : List String
  configToml : String
deriving DecidableEq

/-- The cross variant's `ContainerRuntime.install_containerd`
(cross_distro_k8_cluster_setup.py lines 154-187), over an already
normalized distro identifier and the output `defaultConfig` that
`containerd config default` generates.  The function installs the
distro-specific package (raising `K8sSetupError` for an identifier outside
its dispatch), writes the generated default configuration via a shell
redirect, reads it back, and computes the `SystemdCgroup` substitution into
a local variable that is never written back — so the file keeps the
generator's output, and no service restart or enable command is ever
issued. -/
def installContainerd (distroId : String) (defaultConfig : String) :
    PyResult InstallResult :=
  let installVerb : PyResult String :=
    match lookupDistroCommands distroId with
    | some c => .ok c.install
    | none => .exn (.attributeError "KeyError")
  let configCmd := "containerd config default > /etc/containerd/config.toml"
  if distroId = "ubuntu" ∨ distroId = "debian" then
    match installVerb with
    | .exn e => .exn e
    | .ok v => .ok ⟨[v ++ " containerd.io", configCmd], defaultConfig⟩
  else if distroId = "fedora" ∨ distroId = "centos" ∨ distroId = "rhel" then
    match installVerb with
    | .exn e => .exn e
    | .ok v => .ok ⟨[v ++ " containerd", configCmd], defaultConfig⟩
  else if distroId = "arch" then
    match installVerb with
    | .exn e => .exn e
    | .ok v => .ok ⟨[v ++ " containerd", configCmd], defaultConfig⟩
  else if distroId = "suse" then
    match installVerb with
    | .exn e => .exn e
    | .ok v => .ok ⟨[v ++ " containerd", configCmd], defaultConfig⟩
  else .exn (.k8sSetupError ("Unsupported distribution: " ++ distroId))

example :
    crossLoadConfig (.parsed [("pod_network_cidr", "10.244.0.0/16")]) =
      .ok defaultConfigMap := by decide

example :
    debianLoadConfig (.parsed [("pod_network_cidr", "10.244.0.0/16")]) =
      .exn (.valueError "Missing required config fields: network_plugin") := by decide

example : crossDeployNetworkPlugin (some "CALICO") =
    .ok ["curl -fsSL https://raw.githubusercontent.com/projectcalico/calico/v3.27.0/manifests/calico.yaml",
         "kubectl apply -f calico-manifest.yaml"] := by decide

example : ∃ m, crossDeployNetworkPlugin (some "flannel") = .exn (.k8sSetupError m) :=
  ⟨_, rfl⟩

example : ∃ m, debianDeployNetworkPlugin "cilium" = .exn (.valueError m) := ⟨_, rfl⟩

example :
    installContainerd "gentoo" "cfg" =
      .exn (.k8sSetupError "Unsupported distribution: gentoo") := by decide

/-- The pattern of the `sed -i '/ swap / s/^/#/' /etc/fstab` address: a
line is rewritten when it contains the text `" swap "`. -/
def swapMarker : List Char := " swap ".data

/-- Bool-level test that `pat` occurs contiguously inside `l`. -/
def listIsInfixOf (pat : List Char) : List Char → Bool
  | [] => pat.isEmpty
  | c :: rest => pat.isPrefixOf (c :: rest) || listIsInfixOf pat rest

/-- The effect of that `sed` command on one `/etc/fstab` line: prepend a
`#` to every line containing `" swap "`, leave the rest alone. -/
def sedCommentSwapLine (l : List Char) : List Char :=
  if listIsInfixOf swapMarker l then '#' :: l else l

/-- An fstab line is active (an actual mount entry) unless it starts with
the comment character. -/
def isActiveFstabLine (l : List Char) : Bool :=
  match l with
  | '#' :: _ => false
  | _ => true

/-- The module names `configure_system` loads and persists
(cross_distro_k8_cluster_setup.py line 239). -/
def k8sModules : List String := ["overlay", "br_netfilter"]

/-- The fixed sysctl table `configure_system` writes and reloads
(cross_distro_k8_cluster_setup.py lines 248-254). -/
def k8sSysctlTable : List (String × Nat) :=
  [("net.bridge.bridge-nf-call-iptables", 1),
   ("net.bridge.bridge-nf-call-ip6tables", 1),
   ("net.ipv4.ip_forward", 1),
   ("net.ipv4.conf.all.forwarding", 1),
   ("net.ipv6.conf.all.forwarding", 1)]

/-- Effect of `modprobe m` on the set of loaded kernel modules: loading an
already-loaded module is a tolerated no-op. -/
def modprobe (m : String) (loaded : List String) : List String :=
  if m ∈ loaded then loaded else loaded ++ [m]

/-- The host state that `K8sCluster.configure_system` touches: whether any
swap is active, the `/etc/fstab` lines, the content of
`/etc/modules-load.d/k8s.conf` and `/etc/sysctl.d/k8s.conf` (absent before
first run), the loaded kernel modules, and the applied sysctl values. -/
structure HostState where
  swapOn : Bool
  fstab : List (List Char)
  modulesFile : Option (List String)
  loadedModules : List String
  sysctlFile : Option (List (String × Nat))
  sysctlApplied : List (String × Nat)
deriving DecidableEq

/-- The cross variant's `K8sCluster.configure_system`
(cross_distro_k8_cluster_setup.py lines 231-263): `swapoff -a`, the fstab
`sed`, writing and loading the kernel modules, writing the sysctl table
and `sysctl --system`.  Each underlying command tolerates the
already-satisfied state, so the embedding is a total state transformer. -/
def configureSystem (s : HostState) : HostState :=
  { swapOn := false
    fstab := s.fstab.map sedCommentSwapLine
    modulesFile := some k8sModules
    loadedModules := modprobe "br_netfilter" (modprobe "overlay" s.loadedModules)
    sysctlFile := some k8sSysctlTable
    sysctlApplied := k8sSysctlTable }

/-- A one-swap-line fstab used to exercise `configure_system`. -/
def demoFstabState : HostState :=
  { swapOn := true
    fstab := ["/dev/sda2 none swap sw 0 0".data]
    modulesFile := none
    loadedModules := []
    sysctlFile := none
    sysctlApplied := [] }

example :
    (configureSystem demoFstabState).fstab = ["#/dev/sda2 none swap sw 0 0".data] := by
  decide

example :
    (configureSystem (configureSystem demoFstabState)).fstab =
      ["##/dev/sda2 none swap sw 0 0".data] := by decide

/-- Parse one dotted-quad octet the way the standard library's `ipaddress`
module does: decimal digits only, no leading zero, value at most 255.
Models the Python standard library collaborator `ipaddress.ip_network`
used by both variants for CIDR validation. -/
def ipv4Octet (cs : List Char) : Option Nat :=
  if cs ≠ [] ∧ cs.all (fun c => c.isDigit) ∧ cs.length ≤ 3 ∧
      (cs.length = 1 ∨ cs.headD '0' ≠ '0') then
    let v := cs.foldl (fun a c => a * 10 + (c.toNat - 48)) 0
    if v ≤ 255 then some v else none
  else none

/-- Split a character list on a separator character. -/
def splitOnChar (sep : Char) (cs : List Char) : List (List Char) :=
  match cs with
  | [] => [[]]
  | c :: rest =>
    let r := splitOnChar sep rest
    if c = sep then [] :: r
    else match r with
      | [] => [[c]]
      | h :: t => (c :: h) :: t

/-- The 32-bit value of a dotted-quad IPv4 address, if well-formed. -/
def ipv4Value (cs : List Char) : Option Nat :=
  match (splitOnChar '.' cs).mapM ipv4Octet with
  | some [a, b, c, d] => some (((a * 256 + b) * 256 + c) * 256 + d)
  | _ => none

/-- Parse a prefix length `0..32`. -/
def ipv4Prefix (cs : List Char) : Option Nat :=
  if cs ≠ [] ∧ cs.all (fun c => c.isDigit) ∧ cs.length ≤ 2 then
    let v := cs.foldl (fun a c => a * 10 + (c.toNat - 48)) 0
    if v ≤ 32 then some v else none
  else none

/-- Model of the standard library collaborator
`ipaddress.ip_network(s)` restricted to IPv4 CIDR strings, with the
default strict netmask (host bits must be zero).  Both scripts call it
only to validate `pod_network_cidr`. -/
def isValidIpNetwork (s : String) : Bool :=
  match splitOnChar '/' s.data with
  | [addr] => (ipv4Value addr).isSome
  | [addr, pl] =>
    match ipv4Value addr, ipv4Prefix pl with
    | some v, some n => v % 2 ^ (32 - n) = 0
    | _, _ => false
  | _ => false

example : isValidIpNetwork "10.244.0.0/16" = true := by decide
example : isValidIpNetwork "192.168.0.0/16" = true := by decide
example : isValidIpNetwork "10.0.0.0/40" = false := by decide
example : isValidIpNetwork "not-a-cidr" = false := by decide
example : isValidIpNetwork "10.0.0.1/16" = false := by decide

/-- Value lookup `config[k]` on a parsed mapping; `none` models the
`KeyError` a Python dict raises on an absent key. -/
def getField (c : ConfigMap) (k : String) : Option String :=
  (c.find? (fun p => p.1 == k)).map (fun p => p.2)

/-- The host facts read by the debian variant's
`check_system_requirements`: effective uid, total memory (in GiB; the
Python float is abstracted to a natural number, which is exact at the
comparison boundary used), CPU count, and which of the required external
commands are missing from `PATH`. -/
structure DebianSysFacts where
  euid : Nat
  memoryGb : Nat
  cpuCount : Nat
  missingCommands : List String
deriving DecidableEq

/-- The debian variant's `check_system_requirements`
(k8_cluster_setup.py lines 83-102). -/
def checkSystemRequirements (f : DebianSysFacts) : PyResult Unit :=
  if f.euid ≠ 0 then .exn (.k8sSetupError "Must run as root")
  else if f.memoryGb < 2 ∨ f.cpuCount < 2 then
    .exn (.k8sSetupError "Insufficient resources. Required: 2GB RAM, 2 cores")
  else if f.missingCommands ≠ [] then
    .exn (.k8sSetupError ("Missing commands: " ++ joinComma f.missingCommands))
  else .ok ()

/-- Run one command through the debian variant's `run_command` with its
default `retries=3`, where `env` gives the host's behaviour per command
(the same on every attempt).  Returns the commands actually handed to the
shell (empty when the separator guard rejects) and the call's outcome. -/
def execCmd (env : String → AttemptOutcome) (cmd : String) :
    List String × RunOutcome :=
  if strContainsChar cmd ';' then ([], ⟨.exn (.valueError "Invalid command format"), 0⟩)
  else ([cmd], debianRunLoop (fun _ => env cmd) 3 0 3)

/-- Run a list of commands in order through `execCmd`, stopping at the
first raised exception, accumulating the executed commands. -/
def runCmdSeq (env : String → AttemptOutcome) : List String → List String × PyResult Unit
  | [] => ([], .ok ())
  | c :: rest =>
    let (lg, r) := execCmd env c
    match r.result with
    | .exn e => (lg, .exn e)
    | .ok _ =>
      let (lg2, r2) := runCmdSeq env rest
      (lg ++ lg2, r2)

/-- The command list of the debian variant's `install_prerequisites`
(k8_cluster_setup.py lines 118-131). -/
def debianPrereqCmds : List String :=
  ["apt-get update && apt-get install -y apt-transport-https curl",
   "curl -s https://packages.cloud.google.com/apt/doc/apt-key.gpg | apt-key add -",
   "echo 'deb https://apt.kubernetes.io/ kubernetes-xenial main' > /etc/apt/sources.list.d/kubernetes.list",
   "apt-get update && apt-get install -y kubelet kubeadm kubectl"]

/-- The command list of the debian variant's `disable_swap`
(k8_cluster_setup.py lines 134-141). -/
def debianSwapCmds : List String :=
  ["swapoff -a", "sed -i '/ swap / s/^/#/' /etc/fstab"]

/-- The command list of the debian variant's `configure_kubectl`
(k8_cluster_setup.py lines 166-175), with `HOME=/root` (the script must
run as root). -/
def debianKubectlCmds : List String :=
  ["cp -i /etc/kubernetes/admin.conf /root/.kube/config",
   "chown $(id -u):$(id -g) /root/.kube/config"]

/-- The debian variant's `initialize_master` (k8_cluster_setup.py lines
155-163): CIDR validation, `kubeadm init`, then `configure_kubectl`
(whose catch-all rewraps any failure as a `K8sSetupError`). -/
def debianInitializeMaster (cidr : String) (env : String → AttemptOutcome) :
    List String × PyResult Unit :=
  if isValidIpNetwork cidr then
    let (lg1, r1) := runCmdSeq env ["kubeadm init --pod-network-cidr=" ++ cidr]
    match r1 with
    | .exn e => (lg1, .exn e)
    | .ok _ =>
      let (lg2, r2) := runCmdSeq env debianKubectlCmds
      match r2 with
      | .exn e =>
        (lg1 ++ lg2, .exn (.k8sSetupError ("Failed to configure kubectl: " ++ pyErrMsg e)))
      | .ok _ => (lg1 ++ lg2, .ok ())
  else ([], .exn (.valueError ("Invalid pod network CIDR: " ++ cidr)))

/-- The debian variant's `join_worker_node` (k8_cluster_setup.py lines
209-217): the join command must start with `kubeadm join`, and is then
executed verbatim through `run_command`. -/
def debianJoinWorkerNode (jc : String) (env : String → AttemptOutcome) :
    List String × PyResult Unit :=
  if pyStartsWith jc "kubeadm join" then
    let (lg, r) := execCmd env jc
    (lg, match r.result with
         | .ok _ => .ok ()
         | .exn e => .exn e)
  else ([], .exn (.valueError "Invalid join command"))

/-- The token-creating command of the debian variant's `get_join_command`
(k8_cluster_setup.py lines 193-195). -/
def tokenCreateCmd : String := "kubeadm token create --print-join-command"

/-- The debian variant's `healthcheck` (k8_cluster_setup.py lines
220-229): two `kubectl` probes, any failure rewrapped as a
`K8sSetupError`. -/
def debianHealthcheck (env : String → AttemptOutcome) : List String × PyResult Unit :=
  let (lg, r) := runCmdSeq env ["kubectl get nodes", "kubectl get pods --all-namespaces"]
  match r with
  | .ok _ => (lg, .ok ())
  | .exn e =>
    (lg, .exn (.k8sSetupError ("Unexpected error during health check: " ++ pyErrMsg e)))

/-- Everything an entire run of the debian variant's `main` produced: in
order, the commands actually handed to the shell, the files written, and
the final outcome (`exn` means `main` logged "Setup failed" and called
`sys.exit(1)`; `ok` means exit status 0). -/
structure MainOutcome where
  log : List String
  files : List (String × String)
  exit : PyResult Unit
deriving DecidableEq

/-- The master branch of the debian variant's `main`
(k8_cluster_setup.py lines 262-267): initialize, deploy the configured
plugin, create and save the join command, then health-check. -/
def debianMasterBranch (config : ConfigMap) (env : String → AttemptOutcome) :
    List String × List (String × String) × PyResult Unit :=
  match getField config "pod_network_cidr" with
  | none => ([], [], .exn (.keyError "pod_network_cidr"))
  | some cidr =>
    let (lg1, r1) := debianInitializeMaster cidr env
    match r1 with
    | .exn e => (lg1, [], .exn e)
    | .ok _ =>
      match getField config "network_plugin" with
      | none => (lg1, [], .exn (.keyError "network_plugin"))
      | some plugin =>
        match debianDeployNetworkPlugin plugin with
        | .exn e => (lg1, [], .exn e)
        | .ok deployCmds =>
          let (lg2, r2) := runCmdSeq env deployCmds
          match r2 with
          | .exn e => (lg1 ++ lg2, [], .exn e)
          | .ok _ =>
            let (lg3, r3) := execCmd env tokenCreateCmd
            match r3.result with
            | .exn e => (lg1 ++ lg2 ++ lg3, [], .exn e)
            | .ok none =>
              (lg1 ++ lg2 ++ lg3, [], .exn (.typeError "write() argument must be str"))
            | .ok (some joinCmd) =>
              let (lg4, r4) := debianHealthcheck env
              (lg1 ++ lg2 ++ lg3 ++ lg4, [("join_command.sh", joinCmd)],
                match r4 with
                | .ok _ => .ok ()
                | .exn e => .exn e)

/-- The debian variant's `main` (k8_cluster_setup.py lines 253-277):
configuration loading, system checks, prerequisite installation and swap
disabling always precede the role dispatch; the missing-join-command check
for workers happens only after those mutating steps have run. -/
def debianMain (role : String) (joinCommand : Option String)
    (cfgSrc : ConfigSource) (facts : DebianSysFacts)
    (env : String → AttemptOutcome) : MainOutcome :=
  match debianLoadConfig cfgSrc with
  | .exn e => ⟨[], [], .exn e⟩
  | .ok config =>
    match checkSystemRequirements facts with
    | .exn e => ⟨[], [], .exn e⟩
    | .ok _ =>
      let (lg1, r1) := runCmdSeq env debianPrereqCmds
      match r1 with
      | .exn e => ⟨lg1, [], .exn e⟩
      | .ok _ =>
        let (lg2, r2) := runCmdSeq env debianSwapCmds
        match r2 with
        | .exn e => ⟨lg1 ++ lg2, [], .exn e⟩
        | .ok _ =>
          if role = "master" then
            let (lg3, files, r3) := debianMasterBranch config env
            ⟨lg1 ++ lg2 ++ lg3, files, r3⟩
          else if role = "worker" then
            match joinCommand with
            | none => ⟨lg1 ++ lg2, [], .exn (.valueError "Worker role requires join command")⟩
            | some jc =>
              let (lg3, r3) := debianJoinWorkerNode jc env
              ⟨lg1 ++ lg2 ++ lg3, [], r3⟩
          else ⟨lg1 ++ lg2, [], .ok ()⟩

/-- A host on which every shell command exits 0 with a fixed output. -/
def allOkEnv : String → AttemptOutcome := fun _ => .success "done"

/-- Facts for a host satisfying every requirement check. -/
def goodFacts : DebianSysFacts := ⟨0, 8, 4, []⟩

/-- A parsed configuration with both required fields present. -/
def demoConfigMap : ConfigMap :=
  [("pod_network_cidr", "10.244.0.0/16"), ("network_plugin", "calico")]

example :
    (debianMain "worker" none (.parsed demoConfigMap) goodFacts allOkEnv).exit =
      .exn (.valueError "Worker role requires join command") := by decide

example :
    (debianMain "worker" none (.parsed demoConfigMap) goodFacts allOkEnv).log =
      debianPrereqCmds ++ debianSwapCmds := by decide

example :
    tokenCreateCmd ∈ (debianMain "master" none (.parsed demoConfigMap) goodFacts allOkEnv).log := by
  decide

/-- The literal head of the join-command regular expression of the cross
variant's `main` (cross_distro_k8_cluster_setup.py lines 492-496). -/
def kjoinData : List Char := "kubeadm join ".data

/-- The literal of the second line of that regular expression. -/
def discHashData : List Char := "--discovery-token-ca-cert-hash ".data

/-- Attempt to match the regular expression
`kubeadm join .+\n\s+--discovery-token-ca-cert-hash .+` at the start of
`cs`, returning the matched span.  `.` excludes the newline, so each `.+`
is the non-empty maximal run up to the end of its line; `\s+` is a
non-empty whitespace run, and because the following literal starts with a
non-whitespace character, greedy matching with backtracking is equivalent
to taking the maximal run. -/
def matchJoinPattern (cs : List Char) : Option (List Char) :=
  if kjoinData.isPrefixOf cs then
    let rest := cs.drop kjoinData.length
    let line1 := rest.takeWhile (fun c => !(c == '\n'))
    if line1.isEmpty then none
    else
      match rest.drop line1.length with
      | '\n' :: rest2 =>
        let ws := rest2.takeWhile isPySpace
        if ws.isEmpty then none
        else
          let rest3 := rest2.drop ws.length
          if discHashData.isPrefixOf rest3 then
            let tail := (rest3.drop discHashData.length).takeWhile (fun c => !(c == '\n'))
            if tail.isEmpty then none
            else some (kjoinData ++ (line1 ++ '\n' :: (ws ++ (discHashData ++ tail))))
          else none
      | _ => none
  else none

/-- `re.search` of that pattern: try each start position from the left and
return the first match. -/
def searchJoinCommand : List Char → Option (List Char)
  | [] => none
  | c :: cs =>
    match matchJoinPattern (c :: cs) with
    | some m => some m
    | none => searchJoinCommand cs

/-- The join-command extraction step at the end of the cross variant's
master branch (cross_distro_k8_cluster_setup.py lines 492-501): on a
match, the matched span is written to `join-command.sh`; otherwise no file
is written, and in both cases the run continues to "Setup completed
successfully" (`ok = true`). -/
structure ExtractOutcome where
  files : List (String × String)
  ok : Bool
deriving DecidableEq

/-- The extraction step itself, over the captured `kubeadm init` output. -/
def crossMasterJoinStep (output : String) : ExtractOutcome :=
  match searchJoinCommand output.data with
  | some m => ⟨[("join-command.sh", ⟨m⟩)], true⟩
  | none => ⟨[], true⟩

/-- A realistic captured `kubeadm init` output ending in a join block. -/
def demoInitOutput : String :=
  "Your Kubernetes control-plane has initialized successfully!\n\nThen you can join any number of worker nodes by running the following on each as root:\n\nkubeadm join 10.0.0.5:6443 --token abcdef.0123456789abcdef \\\n    --discovery-token-ca-cert-hash sha256:1234567890abcdef\n"

example :
    crossMasterJoinStep demoInitOutput =
      ⟨[("join-command.sh",
         "kubeadm join 10.0.0.5:6443 --token abcdef.0123456789abcdef \\\n    --discovery-token-ca-cert-hash sha256:1234567890abcdef")],
        true⟩ := by decide

example : crossMasterJoinStep "nothing to see here\n" = ⟨[], true⟩ := by decide

/-- C1: with a configuration mapping lacking the required key
`network_plugin`, the cross variant's `load_config` does not fail: it
catches its own `ValueError` and silently substitutes the default mapping
(contradicting its docstring "Raises ValueError if required fields are
missing"), so the run proceeds on defaults; the debian variant does
propagate the error. -/
theorem c1_load_config_silently_defaults :
    crossLoadConfig (.parsed [("pod_network_cidr", "10.244.0.0/16")]) =
      .ok defaultConfigMap ∧
    debianLoadConfig (.parsed [("pod_network_cidr", "10.244.0.0/16")]) =
      .exn (.valueError "Missing required config fields: network_plugin") := by
  decide

/-- A generated containerd default configuration containing the disabled
cgroup-driver flag. -/
def demoContainerdConfig : String :=
  "[plugins.\"io.containerd.grpc.v1.cri\".containerd.runtimes.runc.options]\n            SystemdCgroup = false\n"

/-- C4: `install_containerd` on ubuntu leaves the generated configuration
file byte-for-byte unchanged (the `re.sub` result is assigned to a local
variable and never written back, so `SystemdCgroup = false` survives on
disk), and the commands it issues contain no `systemctl` restart or enable
of the runtime service. -/
theorem c4_install_containerd_discards_config_and_never_restarts :
    installContainerd "ubuntu" demoContainerdConfig =
      .ok ⟨["apt-get install -y containerd.io",
            "containerd config default > /etc/containerd/config.toml"],
           demoContainerdConfig⟩ ∧
    listIsInfixOf "SystemdCgroup = false".data demoContainerdConfig.data = true ∧
    (["apt-get install -y containerd.io",
      "containerd config default > /etc/containerd/config.toml"].all
        (fun c => !(listIsInfixOf "systemctl".data c.data))) = true := by
  decide

/-- C5 counterexample: `flannel` is absent from the cross variant's plugin
table, `cilium` is absent from the debian variant's table, and the debian
lookup is case-sensitive, so none of the three names is supported by both
deployments and the lookup is not case-insensitive in the debian
variant. -/
theorem c5_counterexample_plugin_tables :
    crossDeployNetworkPlugin (some "flannel") =
      .exn (.k8sSetupError "Unsupported or missing network plugin: flannel") ∧
    debianDeployNetworkPlugin "cilium" = .exn (.valueError "Unsupported plugin: cilium") ∧
    debianDeployNetworkPlugin "Calico" = .exn (.valueError "Unsupported plugin: Calico") := by
  decide

/-- C5 (amended): the cross variant resolves exactly `calico` and `cilium`
case-insensitively, fetching the table's manifest URL and applying it, and
fails with `K8sSetupError` for every other name (including `flannel`); the
debian variant resolves exactly `calico` and `flannel` case-sensitively and
fails with `ValueError` for every other name (including `cilium`). -/
theorem c5_deploy_network_plugin_tables :
    (∀ name : String, pyLower name = "calico" →
      crossDeployNetworkPlugin (some name) =
        .ok ["curl -fsSL https://raw.githubusercontent.com/projectcalico/calico/v3.27.0/manifests/calico.yaml",
             "kubectl apply -f calico-manifest.yaml"]) ∧
    (∀ name : String, pyLower name = "cilium" →
      crossDeployNetworkPlugin (some name) =
        .ok ["curl -fsSL https://raw.githubusercontent.com/cilium/cilium/v1.14/install/kubernetes/quick-install.yaml",
             "kubectl apply -f cilium-manifest.yaml"]) ∧
    (∀ name : String, pyLower name ≠ "calico" → pyLower name ≠ "cilium" →
      crossDeployNetworkPlugin (some name) =
        .exn (.k8sSetupError ("Unsupported or missing network plugin: " ++ pyLower name))) ∧
    (debianDeployNetworkPlugin "calico" =
      .ok ["kubectl apply -f https://docs.projectcalico.org/manifests/calico.yaml"]) ∧
    (debianDeployNetworkPlugin "flannel" =
      .ok ["kubectl apply -f https://raw.githubusercontent.com/coreos/flannel/master/Documentation/kube-flannel.yml"]) ∧
    (∀ name : String, name ≠ "calico" → name ≠ "flannel" →
      debianDeployNetworkPlugin name = .exn (.valueError ("Unsupported plugin: " ++ name))) := by
  refine ⟨?_, ?_, ?_, by decide, by decide, ?_⟩
  · intro name h
    simp [crossDeployNetworkPlugin, h]
    decide
  · intro name h
    simp [crossDeployNetworkPlugin, h]
    decide
  · intro name h1 h2
    have e1 : (("calico" : String) == pyLower name) = false := by
      rw [beq_eq_false_iff_ne]
      exact fun hh => h1 hh.symm
    have e2 : (("cilium" : String) == pyLower name) = false := by
      rw [beq_eq_false_iff_ne]
      exact fun hh => h2 hh.symm
    simp [crossDeployNetworkPlugin, crossPluginTable, List.find?, e1, e2]
  · intro name h1 h2
    have e1 : (("calico" : String) == name) = false := by
      rw [beq_eq_false_iff_ne]
      exact fun hh => h1 hh.symm
    have e2 : (("flannel" : String) == name) = false := by
      rw [beq_eq_false_iff_ne]
      exact fun hh => h2 hh.symm
    simp [debianDeployNetworkPlugin, debianPluginTable, List.find?, e1, e2]

/-- C5 witness: the amended theorem applied at the concrete names
`CILIUM` (case-insensitive cross lookup) and `weave` (unsupported debian
name). -/
theorem c5_witness :
    crossDeployNetworkPlugin (some "CILIUM") =
      .ok ["curl -fsSL https://raw.githubusercontent.com/cilium/cilium/v1.14/install/kubernetes/quick-install.yaml",
           "kubectl apply -f cilium-manifest.yaml"] ∧
    debianDeployNetworkPlugin "weave" = .exn (.valueError "Unsupported plugin: weave") :=
  ⟨c5_deploy_network_plugin_tables.2.1 "CILIUM" (by decide),
   c5_deploy_network_plugin_tables.2.2.2.2.2 "weave" (by decide) (by decide)⟩

/-- C6: each of the seven supported identifiers resolves (after the
constructor's lower-casing) to a verb table with all four verbs populated,
and for any identifier outside the table the installation step fails with
the explicit unsupported-distribution `K8sSetupError` instead of a raw
lookup fault. -/
theorem c6_distro_table_resolution :
    ((supportedDistroIds.all (fun d =>
      match lookupDistroCommands (mkPackageManagerId d) with
      | some c => !(c.update == "") && !(c.install == "") && !(c.remove == "") && !(c.clean == "")
      | none => false)) = true) ∧
    (∀ d gen, lookupDistroCommands d = none →
      installContainerd d gen = .exn (.k8sSetupError ("Unsupported distribution: " ++ d))) := by
  refine ⟨by decide, ?_⟩
  intro d gen h
  have h1 : d ≠ "ubuntu" := by rintro rfl; exact absurd h (by decide)
  have h2 : d ≠ "debian" := by rintro rfl; exact absurd h (by decide)
  have h3 : d ≠ "fedora" := by rintro rfl; exact absurd h (by decide)
  have h4 : d ≠ "centos" := by rintro rfl; exact absurd h (by decide)
  have h5 : d ≠ "rhel" := by rintro rfl; exact absurd h (by decide)
  have h6 : d ≠ "suse" := by rintro rfl; exact absurd h (by decide)
  have h7 : d ≠ "arch" := by rintro rfl; exact absurd h (by decide)
  simp [installContainerd, h1, h2, h3, h4, h5, h6, h7]

/-- C6 witness: the unsupported-identifier half applied at `gentoo`. -/
theorem c6_witness :
    installContainerd "gentoo" "cfg" =
      .exn (.k8sSetupError "Unsupported distribution: gentoo") :=
  c6_distro_table_resolution.2 "gentoo" "cfg" (by decide)

/-- Any run of the cross retry loop either returns the stripped stdout of
some successful attempt or raises a `K8sSetupError`. -/
lemma crossRunLoop_shape (env : Nat → AttemptOutcome) (retries : Nat) :
    ∀ r attempt,
      (∃ i out, env i = .success out ∧
        crossRunLoop env retries attempt (r + 1) = ⟨.ok (some (pyStrip out)), i + 1⟩) ∨
      (∃ m a, crossRunLoop env retries attempt (r + 1) = ⟨.exn (.k8sSetupError m), a⟩) := by
  intro r
  induction r with
  | zero =>
    intro attempt
    rcases h : env attempt with out | e | m | m | m
    · exact Or.inl ⟨attempt, out, h, by simp [crossRunLoop, h]⟩
    · exact Or.inr ⟨"Unexpected error after " ++ natStr retries ++ " attempts", attempt + 1,
        by simp [crossRunLoop, h]⟩
    · exact Or.inr ⟨"Command repeatedly timed out", attempt + 1, by simp [crossRunLoop, h]⟩
    · exact Or.inr ⟨"OS error after " ++ natStr retries ++ " attempts", attempt + 1,
        by simp [crossRunLoop, h]⟩
    · exact Or.inr ⟨"Unexpected error after " ++ natStr retries ++ " attempts", attempt + 1,
        by simp [crossRunLoop, h]⟩
  | succ r ih =>
    intro attempt
    rcases h : env attempt with out | e | m | m | m
    · exact Or.inl ⟨attempt, out, h, by simp [crossRunLoop, h]⟩
    · simpa [crossRunLoop, h] using ih (attempt + 1)
    · simpa [crossRunLoop, h] using ih (attempt + 1)
    · simpa [crossRunLoop, h] using ih (attempt + 1)
    · simpa [crossRunLoop, h] using ih (attempt + 1)

/-- Any run of the debian retry loop either returns the stripped stdout of
some successful attempt or raises a `K8sSetupError`. -/
lemma debianRunLoop_shape (env : Nat → AttemptOutcome) (retries : Nat) :
    ∀ r attempt,
      (∃ i out, env i = .success out ∧
        debianRunLoop env retries attempt (r + 1) = ⟨.ok (some (pyStrip out)), i + 1⟩) ∨
      (∃ m a, debianRunLoop env retries attempt (r + 1) = ⟨.exn (.k8sSetupError m), a⟩) := by
  intro r
  induction r with
  | zero =>
    intro attempt
    rcases h : env attempt with out | e | m | m | m
    · exact Or.inl ⟨attempt, out, h, by simp [debianRunLoop, h]⟩
    · exact Or.inr ⟨"Command failed after " ++ natStr retries ++ " attempts", attempt + 1,
        by simp [debianRunLoop, h]⟩
    · exact Or.inr ⟨"Unexpected error: " ++ m, attempt + 1, by simp [debianRunLoop, h]⟩
    · exact Or.inr ⟨"Unexpected error: " ++ m, attempt + 1, by simp [debianRunLoop, h]⟩
    · exact Or.inr ⟨"Unexpected error: " ++ m, attempt + 1, by simp [debianRunLoop, h]⟩
  | succ r ih =>
    intro attempt
    rcases h : env attempt with out | e | m | m | m
    · exact Or.inl ⟨attempt, out, h, by simp [debianRunLoop, h]⟩
    · simpa [debianRunLoop, h] using ih (attempt + 1)
    · exact Or.inr ⟨"Unexpected error: " ++ m, attempt + 1, by simp [debianRunLoop, h]⟩
    · exact Or.inr ⟨"Unexpected error: " ++ m, attempt + 1, by simp [debianRunLoop, h]⟩
    · exact Or.inr ⟨"Unexpected error: " ++ m, attempt + 1, by simp [debianRunLoop, h]⟩

/-- C2 counterexample: in the debian variant a timed-out command is not
retried at all — `TimeoutExpired` falls into the generic handler, which
raises immediately — so a command that always times out fails after exactly
one attempt (not `maxRetries = 3`) and with an "Unexpected error" rather
than a timeout-classified failure. -/
theorem c2_counterexample_debian_timeout_single_attempt :
    debianRunCommand "kubeadm init"
        (fun _ => .timeoutExpired "Command timed out after 300 seconds") 3 =
      ⟨.exn (.k8sSetupError "Unexpected error: Command timed out after 300 seconds"), 1⟩ ∧
    (1 : Nat) ≠ 3 := by
  exact ⟨by decide, by decide⟩

/-- C2 (amended): with the default `retries = 3`, both variants return
success with three attempts used when the first two attempts exit non-zero
and the third succeeds; a command that always times out fails in the cross
variant with the timeout-classified `K8sSetupError` after exactly three
attempts, but in the debian variant after exactly one attempt with a
generic "Unexpected error". -/
theorem c2_run_command_retry_behavior :
    (∀ cmd env e0 e1 out, env 0 = .nonZeroExit e0 → env 1 = .nonZeroExit e1 →
      env 2 = .success out →
      crossRunCommand cmd env 3 = ⟨.ok (some (pyStrip out)), 3⟩) ∧
    (∀ cmd env m, (∀ i, env i = .timeoutExpired m) →
      crossRunCommand cmd env 3 =
        ⟨.exn (.k8sSetupError "Command repeatedly timed out"), 3⟩) ∧
    (∀ cmd env e0 e1 out, strContainsChar cmd ';' = false →
      env 0 = .nonZeroExit e0 → env 1 = .nonZeroExit e1 → env 2 = .success out →
      debianRunCommand cmd env 3 = ⟨.ok (some (pyStrip out)), 3⟩) ∧
    (∀ cmd env m, strContainsChar cmd ';' = false → (∀ i, env i = .timeoutExpired m) →
      debianRunCommand cmd env 3 =
        ⟨.exn (.k8sSetupError ("Unexpected error: " ++ m)), 1⟩) := by
  refine ⟨?_, ?_, ?_, ?_⟩
  · intro cmd env e0 e1 out h0 h1 h2
    simp [crossRunCommand, crossRunLoop, h0, h1, h2]
  · intro cmd env m h
    simp [crossRunCommand, crossRunLoop, h]
  · intro cmd env e0 e1 out hg h0 h1 h2
    simp [debianRunCommand, hg, debianRunLoop, h0, h1, h2]
  · intro cmd env m hg h
    simp [debianRunCommand, hg, debianRunLoop, h]

/-- An environment that exits non-zero twice and then succeeds. -/
def c2DemoEnv : Nat → AttemptOutcome
  | 0 => .nonZeroExit "boom"
  | 1 => .nonZeroExit "boom"
  | _ => .success " all good "

/-- C2 witness: the amended theorem applied to a concrete
fail-fail-succeed environment and a concrete always-timeout
environment. -/
theorem c2_witness :
    crossRunCommand "kubeadm init" c2DemoEnv 3 =
      ⟨.ok (some (pyStrip " all good ")), 3⟩ ∧
    debianRunCommand "kubeadm init" (fun _ => .timeoutExpired "t") 3 =
      ⟨.exn (.k8sSetupError ("Unexpected error: " ++ "t")), 1⟩ :=
  ⟨c2_run_command_retry_behavior.1 "kubeadm init" c2DemoEnv "boom" "boom" " all good "
     rfl rfl rfl,
   c2_run_command_retry_behavior.2.2.2 "kubeadm init" (fun _ => .timeoutExpired "t") "t"
     (by decide) (fun _ => rfl)⟩

/-- C9 counterexample: the cross variant's `run_command` has no
statement-separator guard at all — a command containing `;` is handed to
the shell (one attempt is made) instead of being rejected with an error
before any attempt. -/
theorem c9_counterexample_cross_no_semicolon_guard :
    crossRunCommand "echo a; echo b" (fun _ => .success "ran") 3 =
      ⟨.ok (some "ran"), 1⟩ := by
  decide

/-- C9 (amended): the debian variant's `run_command` rejects any command
containing `;` with `ValueError` before making any attempt, and for
commands without `;` that guard never fires (no `ValueError` is ever
raised); the cross variant's `run_command` performs no input validation at
all — its behaviour is independent of the command string. -/
theorem c9_semicolon_guard :
    (∀ cmd env retries, strContainsChar cmd ';' = true →
      debianRunCommand cmd env retries = ⟨.exn (.valueError "Invalid command format"), 0⟩) ∧
    (∀ cmd env retries m a, strContainsChar cmd ';' = false →
      debianRunCommand cmd env retries ≠ ⟨.exn (.valueError m), a⟩) ∧
    (∀ cmd cmd' env retries, crossRunCommand cmd env retries = crossRunCommand cmd' env retries) := by
  refine ⟨?_, ?_, fun cmd cmd' env retries => rfl⟩
  · intro cmd env retries h
    simp [debianRunCommand, h]
  · intro cmd env retries m a h
    simp only [debianRunCommand, h, Bool.false_eq_true, if_false]
    cases retries with
    | zero => simp [debianRunLoop]
    | succ r =>
      rcases debianRunLoop_shape env (r + 1) r 0 with ⟨i, out, _, he⟩ | ⟨m', a', he⟩ <;>
        simp [he, RunOutcome.mk.injEq]

/-- C9 witness: the amended theorem applied at a `;`-containing and a
`;`-free concrete command. -/
theorem c9_witness :
    debianRunCommand "echo a;rm -rf /" (fun _ => .success "x") 3 =
      ⟨.exn (.valueError "Invalid command format"), 0⟩ ∧
    debianRunCommand "echo ab" (fun _ => .success "x") 3 ≠
      ⟨.exn (.valueError "boom"), 0⟩ :=
  ⟨c9_semicolon_guard.1 "echo a;rm -rf /" (fun _ => .success "x") 3 (by decide),
   c9_semicolon_guard.2.1 "echo ab" (fun _ => .success "x") 3 "boom" 0 (by decide)⟩

/-- C10 counterexample: for a command containing `;` the debian variant
raises `ValueError` regardless of `retries` — with `retries = 0` it does
not return `None` (and with `retries = 1` it raises something that is not a
`K8sSetupError`), so the claim's dichotomy does not hold for every
command. -/
theorem c10_counterexample_debian_semicolon_value_error :
    debianRunCommand "echo a; echo b" (fun _ => .success "x") 0 =
      ⟨.exn (.valueError "Invalid command format"), 0⟩ ∧
    debianRunCommand "echo a; echo b" (fun _ => .success "x") 0 ≠ ⟨.ok none, 0⟩ ∧
    debianRunCommand "echo a; echo b" (fun _ => .success "x") 1 =
      ⟨.exn (.valueError "Invalid command format"), 0⟩ := by
  refine ⟨by decide, by decide, by decide⟩

/-- C10 (amended): for every command and `retries ≥ 1`, the cross variant
returns some successful attempt's stripped stdout or raises a
`K8sSetupError`, and with `retries = 0` it makes no attempt and returns
`None`; the debian variant behaves the same for commands free of `;`,
while a `;`-containing command is rejected with `ValueError` regardless of
`retries` (the preceding counterexample). -/
theorem c10_run_command_totality :
    (∀ cmd env retries, 1 ≤ retries →
      (∃ i out, env i = .success out ∧
        crossRunCommand cmd env retries = ⟨.ok (some (pyStrip out)), i + 1⟩) ∨
      (∃ m a, crossRunCommand cmd env retries = ⟨.exn (.k8sSetupError m), a⟩)) ∧
    (∀ cmd env, crossRunCommand cmd env 0 = ⟨.ok none, 0⟩) ∧
    (∀ cmd env retries, strContainsChar cmd ';' = false → 1 ≤ retries →
      (∃ i out, env i = .success out ∧
        debianRunCommand cmd env retries = ⟨.ok (some (pyStrip out)), i + 1⟩) ∨
      (∃ m a, debianRunCommand cmd env retries = ⟨.exn (.k8sSetupError m), a⟩)) ∧
    (∀ cmd env, strContainsChar cmd ';' = false →
      debianRunCommand cmd env 0 = ⟨.ok none, 0⟩) := by
  refine ⟨?_, fun cmd env => rfl, ?_, ?_⟩
  · intro cmd env retries h
    cases retries with
    | zero => exact absurd h (by decide)
    | succ r => exact crossRunLoop_shape env (r + 1) r 0
  · intro cmd env retries hg h
    cases retries with
    | zero => exact absurd h (by decide)
    | succ r =>
      have hu : debianRunCommand cmd env (r + 1) = debianRunLoop env (r + 1) 0 (r + 1) := by
        simp [debianRunCommand, hg]
      rw [hu]
      exact debianRunLoop_shape env (r + 1) r 0
  · intro cmd env hg
    simp [debianRunCommand, hg, debianRunLoop]

lemma modprobe_mem_self (m : String) (l : List String) : m ∈ modprobe m l := by
  unfold modprobe
  split
  · assumption
  · simp

lemma modprobe_mem_of_mem (m' : String) {m : String} {l : List String} (h : m ∈ l) :
    m ∈ modprobe m' l := by
  unfold modprobe
  split
  · exact h
  · exact List.mem_append_left _ h

lemma modprobe_eq_of_mem {m : String} {l : List String} (h : m ∈ l) :
    modprobe m l = l := by
  unfold modprobe
  simp [h]

lemma listIsInfixOf_cons {pat l : List Char} (c : Char)
    (h : listIsInfixOf pat l = true) : listIsInfixOf pat (c :: l) = true := by
  simp [listIsInfixOf, h]

/-- Applying the fstab `sed` twice changes only lines that are already
comments, so the active entries are those of a single application. -/
lemma filter_active_map_sed (L : List (List Char)) :
    ((L.map sedCommentSwapLine).map sedCommentSwapLine).filter isActiveFstabLine =
      (L.map sedCommentSwapLine).filter isActiveFstabLine := by
  induction L with
  | nil => rfl
  | cons l t ih =>
    simp only [List.map_cons, List.filter_cons]
    by_cases h : listIsInfixOf swapMarker l = true
    · have h1 : sedCommentSwapLine l = '#' :: l := by simp [sedCommentSwapLine, h]
      have h2 : sedCommentSwapLine ('#' :: l) = '#' :: '#' :: l := by
        simp [sedCommentSwapLine, listIsInfixOf_cons '#' h]
      rw [h1, h2]
      simpa [isActiveFstabLine] using ih
    · have h1 : sedCommentSwapLine l = l := by
        simp [sedCommentSwapLine, h]
      rw [h1, h1, ih]

/-- C3 counterexample: on a host whose `/etc/fstab` holds one swap entry,
running `configure_system` a second time does not leave the state
identical — the `sed` prepends a second `#` to the already-commented swap
line, so the fstab content after the second call differs from the content
after the first. -/
theorem c3_counterexample_configure_system_fstab_changes :
    configureSystem (configureSystem demoFstabState) ≠ configureSystem demoFstabState ∧
    (configureSystem (configureSystem demoFstabState)).fstab =
      ["##/dev/sda2 none swap sw 0 0".data] ∧
    (configureSystem demoFstabState).fstab = ["#/dev/sda2 none swap sw 0 0".data] := by
  refine ⟨by decide, by decide, by decide⟩

/-- C3 (amended): a second `configure_system` raises no error (the
embedding is total because every constituent command tolerates the
already-satisfied state) and leaves the swap flag, loaded modules, module
autoload file, sysctl file and applied sysctl values unchanged, and
preserves the set of active (uncommented) fstab entries — but not the
fstab bytes: each swap line gains one more leading `#` per run. -/
theorem c3_configure_system_second_run (s : HostState) :
    (configureSystem (configureSystem s)).swapOn = (configureSystem s).swapOn ∧
    (configureSystem (configureSystem s)).modulesFile = (configureSystem s).modulesFile ∧
    (configureSystem (configureSystem s)).loadedModules = (configureSystem s).loadedModules ∧
    (configureSystem (configureSystem s)).sysctlFile = (configureSystem s).sysctlFile ∧
    (configureSystem (configureSystem s)).sysctlApplied = (configureSystem s).sysctlApplied ∧
    (configureSystem (configureSystem s)).fstab.filter isActiveFstabLine =
      (configureSystem s).fstab.filter isActiveFstabLine := by
  refine ⟨rfl, rfl, ?_, rfl, rfl, filter_active_map_sed s.fstab⟩
  show modprobe "br_netfilter" (modprobe "overlay" (configureSystem s).loadedModules) =
    (configureSystem s).loadedModules
  have hov : "overlay" ∈ (configureSystem s).loadedModules :=
    modprobe_mem_of_mem "br_netfilter" (modprobe_mem_self "overlay" s.loadedModules)
  have hbr : "br_netfilter" ∈ (configureSystem s).loadedModules :=
    modprobe_mem_self "br_netfilter" _
  rw [modprobe_eq_of_mem hov, modprobe_eq_of_mem hbr]

lemma isPrefixOf_true_iff (l₁ l₂ : List Char) :
    l₁.isPrefixOf l₂ = true ↔ l₁ <+: l₂ := List.isPrefixOf_iff_prefix

lemma isEmpty_false_of_ne_nil {l : List Char} (h : l ≠ []) : l.isEmpty = false := by
  cases l with
  | nil => exact absurd rfl h
  | cons a t => rfl

lemma takeWhile_append_left (p : Char → Bool) (l₁ l₂ : List Char)
    (h₁ : ∀ c ∈ l₁, p c = true) (h₂ : ∀ c, l₂.head? = some c → p c = false) :
    (l₁ ++ l₂).takeWhile p = l₁ := by
  induction l₁ with
  | nil =>
    cases l₂ with
    | nil => rfl
    | cons c t => simp [List.takeWhile_cons, h₂ c rfl]
  | cons a t ih =>
    simp only [List.cons_append, List.takeWhile_cons, h₁ a (by simp), if_true]
    rw [ih (fun c hc => h₁ c (by simp [hc]))]

/-- Computation of the pattern matcher on a well-formed join block: the
match is exactly the two lines (and their separating newline), the
trailing text after the hash line being excluded. -/
lemma matchJoinPattern_block (body ws hash post : List Char)
    (hbody : body ≠ []) (hbodyNL : '\n' ∉ body)
    (hws : ws ≠ []) (hwsSp : ∀ c ∈ ws, isPySpace c = true)
    (hhash : hash ≠ []) (hhashNL : '\n' ∉ hash)
    (hpost : post = [] ∨ post.head? = some '\n') :
    matchJoinPattern (kjoinData ++ (body ++ '\n' :: (ws ++ (discHashData ++ (hash ++ post))))) =
      some (kjoinData ++ (body ++ '\n' :: (ws ++ (discHashData ++ hash)))) := by
  have hpre : kjoinData.isPrefixOf
      (kjoinData ++ (body ++ '\n' :: (ws ++ (discHashData ++ (hash ++ post))))) = true := by
    rw [isPrefixOf_true_iff]
    exact List.prefix_append _ _
  have hline : (body ++ '\n' :: (ws ++ (discHashData ++ (hash ++ post)))).takeWhile
      (fun c => !(c == '\n')) = body := by
    refine takeWhile_append_left _ _ _ (fun c hc => ?_) (fun c hc => ?_)
    · have hne : c ≠ '\n' := fun hEq => hbodyNL (hEq ▸ hc)
      simp [hne]
    · obtain rfl : '\n' = c := by simpa using hc
      decide
  have hwsTake : (ws ++ (discHashData ++ (hash ++ post))).takeWhile isPySpace = ws := by
    refine takeWhile_append_left _ _ _ hwsSp (fun c hc => ?_)
    rw [show discHashData ++ (hash ++ post) =
        '-' :: ("-discovery-token-ca-cert-hash ".data ++ (hash ++ post)) from by
      rw [show discHashData = '-' :: "-discovery-token-ca-cert-hash ".data from by decide]
      rfl] at hc
    obtain rfl : '-' = c := by simpa using hc
    decide
  have hdiscPre : discHashData.isPrefixOf (discHashData ++ (hash ++ post)) = true := by
    rw [isPrefixOf_true_iff]
    exact List.prefix_append _ _
  have htail : (hash ++ post).takeWhile (fun c => !(c == '\n')) = hash := by
    refine takeWhile_append_left _ _ _ (fun c hc => ?_) (fun c hc => ?_)
    · have hne : c ≠ '\n' := fun hEq => hhashNL (hEq ▸ hc)
      simp [hne]
    · rcases hpost with hnil | hhd
      · rw [hnil] at hc
        simp at hc
      · rw [hhd] at hc
        obtain rfl : '\n' = c := by simpa using hc
        decide
  simp only [matchJoinPattern, hpre, if_true, List.drop_left, hline,
    isEmpty_false_of_ne_nil hbody, hwsTake, isEmpty_false_of_ne_nil hws,
    hdiscPre, htail, isEmpty_false_of_ne_nil hhash, Bool.false_eq_true, if_false]

lemma matchJoinPattern_eq_none (cs : List Char)
    (h : kjoinData.isPrefixOf cs = false) : matchJoinPattern cs = none := by
  simp [matchJoinPattern, h]

/-- No proper suffix of the join-command literal equals one of its own
prefixes, so an occurrence cannot straddle the boundary between earlier
output and the literal. -/
lemma kjoin_no_overlap :
    ∀ k, k < kjoinData.length → 0 < k →
      kjoinData.drop k ≠ kjoinData.take (kjoinData.length - k) := by decide

/-- If the literal does not occur inside `pre`, no nonempty suffix of
`pre` followed by the block (which starts with the literal) starts with
the literal. -/
lemma no_kjoin_prefix_inside {pre : List Char} (hinf : ¬ kjoinData <:+: pre)
    {s : List Char} (hs : s <:+ pre) (hne : s ≠ []) (blockRest : List Char) :
    kjoinData.isPrefixOf (s ++ (kjoinData ++ blockRest)) = false := by
  by_contra hcon
  have hp : kjoinData <+: s ++ (kjoinData ++ blockRest) := by
    rw [← isPrefixOf_true_iff]
    revert hcon
    cases kjoinData.isPrefixOf (s ++ (kjoinData ++ blockRest)) <;> simp
  obtain ⟨tl, htl⟩ := hp
  rcases Nat.lt_or_ge s.length kjoinData.length with hlt | hge
  · have htake := congrArg (List.take kjoinData.length) htl
    rw [List.take_left, List.take_append_eq_append_take,
      List.take_of_length_le (Nat.le_of_lt hlt), List.take_append_eq_append_take] at htake
    have h0 : blockRest.take (kjoinData.length - s.length - kjoinData.length) = [] := by
      rw [show kjoinData.length - s.length - kjoinData.length = 0 from by omega]
      rfl
    rw [h0, List.append_nil] at htake
    have hdrop := congrArg (List.drop s.length) htake
    rw [List.drop_left] at hdrop
    exact kjoin_no_overlap s.length hlt (List.length_pos.mpr hne) hdrop
  · have htake := congrArg (List.take kjoinData.length) htl
    rw [List.take_left, List.take_append_eq_append_take] at htake
    have h0 : (kjoinData ++ blockRest).take (kjoinData.length - s.length) = [] := by
      rw [show kjoinData.length - s.length = 0 from by omega]
      rfl
    rw [h0, List.append_nil] at htake
    have hpfx : kjoinData <+: s := by
      refine ⟨s.drop kjoinData.length, ?_⟩
      nth_rewrite 1 [htake]
      exact List.take_append_drop _ _
    obtain ⟨w, hw⟩ := hs
    obtain ⟨d, hd⟩ := hpfx
    exact hinf ⟨w, d, by rw [List.append_assoc, hd]; exact hw⟩

/-- Search skips a prefix on which no match starts. -/
lemma searchJoinCommand_append (pre rest : List Char)
    (h : ∀ s, s <:+ pre → s ≠ [] → matchJoinPattern (s ++ rest) = none) :
    searchJoinCommand (pre ++ rest) = searchJoinCommand rest := by
  induction pre with
  | nil => rfl
  | cons c t ih =>
    have h0 : matchJoinPattern (c :: (t ++ rest)) = none :=
      h (c :: t) (List.suffix_refl _) (by simp)
    rw [List.cons_append, searchJoinCommand, h0]
    exact ih (fun s hs hne => h s (hs.trans (List.suffix_cons c t)) hne)

lemma searchJoinCommand_of_match {l m : List Char} (h : matchJoinPattern l = some m) :
    searchJoinCommand l = some m := by
  cases l with
  | nil =>
    rw [show matchJoinPattern ([] : List Char) = none from by decide] at h
    exact absurd h (by simp)
  | cons c t => rw [searchJoinCommand, h]

/-- The full leftmost-search result on output consisting of arbitrary text
(not containing the join literal), a join line, its indented hash
continuation line, and arbitrary following lines. -/
lemma searchJoinCommand_block (pre body ws hash post : List Char)
    (hinf : ¬ kjoinData <:+: pre)
    (hbody : body ≠ []) (hbodyNL : '\n' ∉ body)
    (hws : ws ≠ []) (hwsSp : ∀ c ∈ ws, isPySpace c = true)
    (hhash : hash ≠ []) (hhashNL : '\n' ∉ hash)
    (hpost : post = [] ∨ post.head? = some '\n') :
    searchJoinCommand
        (pre ++ (kjoinData ++ (body ++ '\n' :: (ws ++ (discHashData ++ (hash ++ post)))))) =
      some (kjoinData ++ (body ++ '\n' :: (ws ++ (discHashData ++ hash)))) := by
  rw [searchJoinCommand_append pre _ (fun s hs hne =>
    matchJoinPattern_eq_none _ (no_kjoin_prefix_inside hinf hs hne
      (body ++ '\n' :: (ws ++ (discHashData ++ (hash ++ post))))))]
  exact searchJoinCommand_of_match
    (matchJoinPattern_block body ws hash post hbody hbodyNL hws hwsSp hhash hhashNL hpost)

/-- C7 counterexample: in the debian variant's master flow a join token is
generated automatically on every successful run — `main` unconditionally
invokes `kubeadm token create --print-join-command` after initialization
rather than extracting the join command from the init output. -/
theorem c7_counterexample_debian_token_create :
    tokenCreateCmd ∈ (debianMain "master" none (.parsed demoConfigMap) goodFacts allOkEnv).log ∧
    (debianMain "master" none (.parsed demoConfigMap) goodFacts allOkEnv).exit = .ok () := by
  refine ⟨by decide, by decide⟩

/-- C7 (amended): in the cross variant, for init output whose text before
the join line does not contain the literal `kubeadm join `, extraction
returns exactly the join line and its indented hash line (with their
separating newline) and writes exactly that artifact; for output in which
the pattern does not occur, no artifact is produced and the run still
succeeds.  The debian variant instead always creates a fresh token (the
counterexample above). -/
theorem c7_join_extraction :
    (∀ pre body ws hash post : List Char,
      ¬ kjoinData <:+: pre →
      body ≠ [] → '\n' ∉ body →
      ws ≠ [] → (∀ c ∈ ws, isPySpace c = true) →
      hash ≠ [] → '\n' ∉ hash →
      (post = [] ∨ post.head? = some '\n') →
      crossMasterJoinStep
          ⟨pre ++ (kjoinData ++ (body ++ '\n' :: (ws ++ (discHashData ++ (hash ++ post)))))⟩ =
        ⟨[("join-command.sh",
           ⟨kjoinData ++ (body ++ '\n' :: (ws ++ (discHashData ++ hash)))⟩)], true⟩) ∧
    (∀ output : String, searchJoinCommand output.data = none →
      crossMasterJoinStep output = ⟨[], true⟩) := by
  constructor
  · intro pre body ws hash post hinf hbody hbodyNL hws hwsSp hhash hhashNL hpost
    unfold crossMasterJoinStep
    rw [show (⟨pre ++ (kjoinData ++ (body ++ '\n' :: (ws ++ (discHashData ++ (hash ++ post)))))⟩ :
        String).data =
      pre ++ (kjoinData ++ (body ++ '\n' :: (ws ++ (discHashData ++ (hash ++ post))))) from rfl]
    rw [searchJoinCommand_block pre body ws hash post hinf hbody hbodyNL hws hwsSp
      hhash hhashNL hpost]
  · intro output h
    unfold crossMasterJoinStep
    rw [h]

/-- C7 witness: the amended theorem applied to a concrete init output and
to a concrete patternless output. -/
theorem c7_witness :
    crossMasterJoinStep
        ⟨"init done\n".data ++ (kjoinData ++ ("10.0.0.5:6443 --token abc.def".data ++
          '\n' :: ("    ".data ++ (discHashData ++ ("sha256:0123abcd".data ++ "\n".data)))))⟩ =
      ⟨[("join-command.sh",
         ⟨kjoinData ++ ("10.0.0.5:6443 --token abc.def".data ++
           '\n' :: ("    ".data ++ (discHashData ++ "sha256:0123abcd".data)))⟩)], true⟩ ∧
    crossMasterJoinStep "no pattern here\n" = ⟨[], true⟩ :=
  ⟨c7_join_extraction.1 "init done\n".data "10.0.0.5:6443 --token abc.def".data
     "    ".data "sha256:0123abcd".data "\n".data (by decide) (by decide) (by decide)
     (by decide) (by decide) (by decide) (by decide) (by decide),
   c7_join_extraction.2 "no pattern here\n" (by decide)⟩

/-- C8 counterexample: with role `worker` and no join command supplied,
the debian variant's run does fail, but only after the mutating steps have
executed — its command log already contains `swapoff -a` (and the whole
prerequisite installation) when the missing-join-command error is
raised. -/
theorem c8_counterexample_worker_mutates_before_join_check :
    (debianMain "worker" none (.parsed demoConfigMap) goodFacts allOkEnv).exit =
      .exn (.valueError "Worker role requires join command") ∧
    "swapoff -a" ∈ (debianMain "worker" none (.parsed demoConfigMap) goodFacts allOkEnv).log := by
  refine ⟨by decide, by decide⟩

/-- C8 (amended): with role `worker` and no join command, the run fails
with the missing-join-command error, but only after the prerequisite
installation and swap-disable commands have all been handed to the shell;
a supplied join command is additionally required to start with
`kubeadm join` (rejected with `ValueError` before any execution
otherwise), and one passing that check is executed verbatim as the sole
command of the join step. -/
theorem c8_worker_flow :
    (∀ cfg facts, missingFields cfg = [] → checkSystemRequirements facts = .ok () →
      debianMain "worker" none (.parsed cfg) facts allOkEnv =
        ⟨debianPrereqCmds ++ debianSwapCmds, [],
          .exn (.valueError "Worker role requires join command")⟩) ∧
    (∀ jc env, pyStartsWith jc "kubeadm join" = false →
      debianJoinWorkerNode jc env = ([], .exn (.valueError "Invalid join command"))) ∧
    (∀ jc env, pyStartsWith jc "kubeadm join" = true → strContainsChar jc ';' = false →
      (debianJoinWorkerNode jc env).1 = [jc]) := by
  refine ⟨?_, ?_, ?_⟩
  · intro cfg facts h1 h2
    have hl : debianLoadConfig (.parsed cfg) = .ok cfg := by
      simp [debianLoadConfig, h1]
    unfold debianMain
    simp only [hl, h2]
    rw [if_neg (by decide : ¬(("worker" : String) = "master"))]
    decide
  · intro jc env h
    simp [debianJoinWorkerNode, h]
  · intro jc env h hg
    simp [debianJoinWorkerNode, h, execCmd, hg]

/-- C8 witness: the amended theorem applied to the demo configuration and
to two concrete join commands. -/
theorem c8_witness :
    debianMain "worker" none (.parsed demoConfigMap) goodFacts allOkEnv =
      ⟨debianPrereqCmds ++ debianSwapCmds, [],
        .exn (.valueError "Worker role requires join command")⟩ ∧
    debianJoinWorkerNode "echo hi" allOkEnv = ([], .exn (.valueError "Invalid join command")) ∧
    (debianJoinWorkerNode "kubeadm join 10.0.0.5:6443 --token abc.def" allOkEnv).1 =
      ["kubeadm join 10.0.0.5:6443 --token abc.def"] :=
  ⟨c8_worker_flow.1 demoConfigMap goodFacts (by decide) (by decide),
   c8_worker_flow.2.1 "echo hi" allOkEnv (by decide),
   c8_worker_flow.2.2 "kubeadm join 10.0.0.5:6443 --token abc.def" allOkEnv
     (by decide) (by decide)⟩

/-- C3 witness: the amended idempotence theorem applied at the demo host
state. -/
theorem c3_witness :
    (configureSystem (configureSystem demoFstabState)).swapOn =
      (configureSystem demoFstabState).swapOn ∧
    (configureSystem (configureSystem demoFstabState)).modulesFile =
      (configureSystem demoFstabState).modulesFile ∧
    (configureSystem (configureSystem demoFstabState)).loadedModules =
      (configureSystem demoFstabState).loadedModules ∧
    (configureSystem (configureSystem demoFstabState)).sysctlFile =
      (configureSystem demoFstabState).sysctlFile ∧
    (configureSystem (configureSystem demoFstabState)).sysctlApplied =
      (configureSystem demoFstabState).sysctlApplied ∧
    (configureSystem (configureSystem demoFstabState)).fstab.filter isActiveFstabLine =
      (configureSystem demoFstabState).fstab.filter isActiveFstabLine :=
  c3_configure_system_second_run demoFstabState

/-- C10 witness: the amended theorem applied to a concrete always-succeed
environment at `retries = 3` and to `retries = 0`. -/
theorem c10_witness :
    ((∃ i out, (fun _ => AttemptOutcome.success " hi ") i = .success out ∧
        crossRunCommand "kubectl get nodes" (fun _ => .success " hi ") 3 =
          ⟨.ok (some (pyStrip out)), i + 1⟩) ∨
      (∃ m a, crossRunCommand "kubectl get nodes" (fun _ => .success " hi ") 3 =
        ⟨.exn (.k8sSetupError m), a⟩)) ∧
    debianRunCommand "kubectl get nodes" (fun _ => .success " hi ") 0 = ⟨.ok none, 0⟩ :=
  ⟨c10_run_command_totality.1 "kubectl get nodes" (fun _ => .success " hi ") 3 (by decide),
   c10_run_command_totality.2.2.2 "kubectl get nodes" (fun _ => .success " hi ") (by decide)⟩
